import Mathlib

/-!
Verification of the multi-prover AVS operator node against its specification.

The development shallowly embeds the two Go operator variants:
 - variant 1: `operator/operator.go`
 - variant 2: the second operator file (checkpointed task fetcher, simulation
   mode, TEE liveness renewal loop)
External collaborators (chain RPC, prover RPC, aggregator, JSON encoding,
BLS signing) are abstracted as environment fields; the control flow, data
decoding and arithmetic of the operator code itself are embedded faithfully.
-/

set_option maxRecDepth 4000

namespace MultiProver

/- Bytes are modelled as natural numbers throughout. -/

instance {ε α : Type} [DecidableEq ε] [DecidableEq α] :
    DecidableEq (Except ε α) := fun a b => by
  cases a <;> cases b
  case error.error e f =>
    exact if h : e = f then isTrue (by rw [h])
      else isFalse fun hc => h (by cases hc; rfl)
  case error.ok e x => exact isFalse fun hc => Except.noConfusion hc
  case ok.error x e => exact isFalse fun hc => Except.noConfusion hc
  case ok.ok x y =>
    exact if h : x = y then isTrue (by rw [h])
      else isFalse fun hc => h (by cases hc; rfl)

/-! ## Checkpoint persistence (`GetBlock` / `SaveBlock`, operator variant 2)

The checkpoint is a small file.  `SaveBlock` writes the decimal text of the
block number at offset 0 (Go `WriteAt(data, 0)`), which leaves any residual
suffix of the previous content in place.  `GetBlock` reads the first 16
bytes, trims NUL/CR/LF/space, and parses a base-10 `int64`. -/

/-- Go `file.WriteAt(data, 0)`: overwrite the first `data.length` bytes,
keeping the rest of the file. -/
def writeAt0 (data file : List Nat) : List Nat :=
  data ++ file.drop data.length

/-- Decimal digits of `n` (most significant first), with explicit fuel;
`fuel` bounds the number of digits.  Empty for `n = 0`. -/
def digitsAux : Nat → Nat → List Nat
  | 0, _ => []
  | fuel + 1, n => if n = 0 then [] else digitsAux fuel (n / 10) ++ [n % 10 + 48]

/-- Go `strconv.FormatUint(n, 10)`.  A `uint64` has at most 20 decimal
digits, so fuel 20 is exact on the whole domain. -/
def formatUint (n : Nat) : List Nat :=
  if n = 0 then [48] else digitsAux 20 n

/-- `SaveBlock` (variant 2): write the decimal text of the checkpoint at
offset 0 of the offset file, without truncating. -/
def SaveBlock (offset : Nat) (file : List Nat) : List Nat :=
  writeAt0 (formatUint offset) file

/-- The byte classes trimmed by `bytes.Trim(data, "\x00\r\n ")`. -/
def isTrimByte (b : Nat) : Bool :=
  b == 0 || b == 13 || b == 10 || b == 32

/-- Go `bytes.Trim`: drop the trim bytes from both ends. -/
def trimBytes (l : List Nat) : List Nat :=
  ((l.dropWhile isTrimByte).reverse.dropWhile isTrimByte).reverse

/-- An ASCII decimal digit. -/
def isDigitByte (b : Nat) : Bool :=
  48 ≤ b && b ≤ 57

/-- Value of a digit string (most significant first). -/
def digitsVal (l : List Nat) : Nat :=
  l.foldl (fun a b => a * 10 + (b - 48)) 0

/-- Parse a nonempty all-digit string. -/
def parseDigits (l : List Nat) : Option Nat :=
  if l.isEmpty then none
  else if l.all isDigitByte then some (digitsVal l) else none

/-- Go `strconv.ParseInt(s, 10, 64)`: optional sign, decimal digits,
`int64` range check. -/
def parseInt64 (l : List Nat) : Option Int :=
  match l with
  | [] => none
  | b :: rest =>
    if b = 43 then
      (parseDigits rest).bind fun n =>
        if (n : Int) < 2 ^ 63 then some (n : Int) else none
    else if b = 45 then
      (parseDigits rest).bind fun n =>
        if (n : Int) ≤ 2 ^ 63 then some (-(n : Int)) else none
    else
      (parseDigits (b :: rest)).bind fun n =>
        if (n : Int) < 2 ^ 63 then some (n : Int) else none

/-- Go conversion `uint64(i)` of an `int64`: two's-complement wrap. -/
def intToUInt64 (i : Int) : Nat :=
  (i % (2 ^ 64 : Int)).toNat

/-- `GetBlock` (variant 2): `ReadAt` the first 16 bytes of the offset file;
an empty read with EOF yields block 0 and no error; otherwise trim and
parse the decimal text.  `none` models a returned error. -/
def GetBlock (file : List Nat) : Option Nat :=
  let data := file.take 16
  if data.length = 0 then some 0
  else
    match parseInt64 (trimBytes data) with
    | none => none
    | some i => some (intToUInt64 i)

/-! ### Lemmas about the decimal codec -/

theorem digitsVal_append_singleton (l : List Nat) (d : Nat) :
    digitsVal (l ++ [d]) = digitsVal l * 10 + (d - 48) := by
  simp [digitsVal, List.foldl_append]

theorem digitsAux_val (fuel : Nat) :
    ∀ n : Nat, n < 10 ^ fuel → digitsVal (digitsAux fuel n) = n := by
  induction fuel with
  | zero =>
    intro n hn
    interval_cases n
    simp [digitsAux, digitsVal]
  | succ fuel ih =>
    intro n hn
    by_cases h0 : n = 0
    · simp [digitsAux, h0, digitsVal]
    · have hdiv : n / 10 < 10 ^ fuel := by
        rw [Nat.div_lt_iff_lt_mul (by norm_num)]
        calc n < 10 ^ (fuel + 1) := hn
        _ = 10 ^ fuel * 10 := by ring
      simp only [digitsAux, h0, if_false]
      rw [digitsVal_append_singleton, ih (n / 10) hdiv]
      omega

theorem digitsAux_all_digits (fuel : Nat) :
    ∀ n : Nat, ∀ b ∈ digitsAux fuel n, isDigitByte b = true := by
  induction fuel with
  | zero => intro n b hb; simp [digitsAux] at hb
  | succ fuel ih =>
    intro n b hb
    by_cases h0 : n = 0
    · simp [digitsAux, h0] at hb
    · simp only [digitsAux, h0, if_false, List.mem_append, List.mem_singleton] at hb
      rcases hb with hb | hb
      · exact ih (n / 10) b hb
      · subst hb
        have : n % 10 < 10 := Nat.mod_lt n (by norm_num)
        simp [isDigitByte]
        omega

theorem digitsAux_length_le (fuel : Nat) :
    ∀ k n : Nat, n < 10 ^ k → k ≤ fuel → (digitsAux fuel n).length ≤ k := by
  induction fuel with
  | zero =>
    intro k n _ hk
    simp [digitsAux]
  | succ fuel ih =>
    intro k n hn hk
    by_cases h0 : n = 0
    · simp [digitsAux, h0]
    · have hkpos : 0 < k := by
        rcases Nat.eq_zero_or_pos k with h | h
        · subst h; simp at hn; omega
        · exact h
      obtain ⟨k', rfl⟩ : ∃ k', k = k' + 1 := ⟨k - 1, by omega⟩
      have hdiv : n / 10 < 10 ^ k' := by
        rw [Nat.div_lt_iff_lt_mul (by norm_num)]
        calc n < 10 ^ (k' + 1) := hn
        _ = 10 ^ k' * 10 := by ring
      simp only [digitsAux, h0, if_false, List.length_append, List.length_singleton]
      have := ih k' (n / 10) hdiv (by omega)
      omega

theorem digitsAux_ne_nil (fuel n : Nat) (h0 : n ≠ 0) (hf : fuel ≠ 0) :
    digitsAux fuel n ≠ [] := by
  obtain ⟨fuel', rfl⟩ : ∃ f, fuel = f + 1 := ⟨fuel - 1, by omega⟩
  simp [digitsAux, h0]

theorem dropWhile_eq_self_of_not (p : Nat → Bool) (l : List Nat)
    (h : ∀ b ∈ l, p b = false) : l.dropWhile p = l := by
  cases l with
  | nil => rfl
  | cons a l =>
    rw [List.dropWhile_cons]
    simp [h a (by simp)]

theorem trimBytes_digits (l : List Nat)
    (h : ∀ b ∈ l, isDigitByte b = true) : trimBytes l = l := by
  have hnt : ∀ b ∈ l, isTrimByte b = false := by
    intro b hb
    have hd := h b hb
    simp only [isDigitByte, Bool.and_eq_true, decide_eq_true_eq] at hd
    simp only [isTrimByte, Bool.or_eq_false_iff, beq_eq_false_iff_ne, ne_eq]
    omega
  unfold trimBytes
  rw [dropWhile_eq_self_of_not _ _ hnt]
  rw [dropWhile_eq_self_of_not _ _ (by intro b hb; exact hnt b (List.mem_reverse.mp hb))]
  simp

theorem formatUint_all_digits (n : Nat) :
    ∀ b ∈ formatUint n, isDigitByte b = true := by
  intro b hb
  by_cases h0 : n = 0
  · simp [formatUint, h0] at hb
    simp [hb, isDigitByte]
  · simp only [formatUint, h0, if_false] at hb
    exact digitsAux_all_digits 20 n b hb

theorem formatUint_ne_nil (n : Nat) : formatUint n ≠ [] := by
  by_cases h0 : n = 0
  · simp [formatUint, h0]
  · simp only [formatUint, h0, if_false]
    exact digitsAux_ne_nil 20 n h0 (by norm_num)

theorem formatUint_val (n : Nat) (hn : n < 10 ^ 20) :
    digitsVal (formatUint n) = n := by
  by_cases h0 : n = 0
  · simp [formatUint, h0, digitsVal]
  · simp only [formatUint, h0, if_false]
    exact digitsAux_val 20 n hn

theorem formatUint_length_le (n k : Nat) (hn : n < 10 ^ k) (hk : k ≤ 20)
    (hkpos : 0 < k) : (formatUint n).length ≤ k := by
  by_cases h0 : n = 0
  · simp [formatUint, h0]; omega
  · simp only [formatUint, h0, if_false]
    exact digitsAux_length_le 20 k n hn hk

theorem parseDigits_formatUint (n : Nat) (hn : n < 10 ^ 20) :
    parseDigits (formatUint n) = some n := by
  rw [parseDigits]
  rw [if_neg (by simpa [List.isEmpty_iff] using formatUint_ne_nil n)]
  rw [if_pos (by rw [List.all_eq_true]; exact formatUint_all_digits n)]
  rw [formatUint_val n hn]

theorem parseInt64_cons (b : Nat) (rest : List Nat) :
    parseInt64 (b :: rest) =
      (if b = 43 then
        (parseDigits rest).bind fun n =>
          if (n : Int) < 2 ^ 63 then some (n : Int) else none
      else if b = 45 then
        (parseDigits rest).bind fun n =>
          if (n : Int) ≤ 2 ^ 63 then some (-(n : Int)) else none
      else
        (parseDigits (b :: rest)).bind fun n =>
          if (n : Int) < 2 ^ 63 then some (n : Int) else none) := rfl

theorem parseInt64_formatUint (n : Nat) (hn : n < 2 ^ 63) :
    parseInt64 (formatUint n) = some (n : Int) := by
  have hn20 : n < 10 ^ 20 := by
    calc n < 2 ^ 63 := hn
    _ < 10 ^ 20 := by norm_num
  obtain ⟨b, rest, hbr⟩ : ∃ b rest, formatUint n = b :: rest := by
    cases h : formatUint n with
    | nil => exact absurd h (formatUint_ne_nil n)
    | cons b rest => exact ⟨b, rest, rfl⟩
  have hb : isDigitByte b = true := by
    apply formatUint_all_digits n
    rw [hbr]; simp
  have hb48 : 48 ≤ b ∧ b ≤ 57 := by simpa [isDigitByte] using hb
  rw [hbr, parseInt64_cons]
  rw [if_neg (by omega), if_neg (by omega), ← hbr, parseDigits_formatUint n hn20]
  rw [Option.some_bind]
  rw [if_pos (by exact_mod_cast hn)]

/-- C2 (amended): `SaveBlock` then `GetBlock` round-trips — provided the
block number has at most 16 decimal digits (`GetBlock` reads only the
first 16 bytes of the record) and its decimal text is at least as long as
the existing record content (in particular whenever block numbers are
saved in non-decreasing order, as the tracer does, or the record is
fresh), so that the non-truncating `WriteAt` fully covers the old
record. -/
theorem getBlock_saveBlock (n : Nat) (file : List Nat)
    (hn : n < 10 ^ 16) (hlen : file.length ≤ (formatUint n).length) :
    GetBlock (SaveBlock n file) = some n := by
  have hdrop : file.drop (formatUint n).length = [] :=
    List.drop_eq_nil_of_le hlen
  have hsave : SaveBlock n file = formatUint n := by
    rw [SaveBlock, writeAt0, hdrop, List.append_nil]
  have hn63 : n < 2 ^ 63 := by
    calc n < 10 ^ 16 := hn
    _ < 2 ^ 63 := by norm_num
  have hlen16 : (formatUint n).length ≤ 16 :=
    formatUint_length_le n 16 hn (by norm_num) (by norm_num)
  have htake : (formatUint n).take 16 = formatUint n :=
    List.take_of_length_le hlen16
  rw [hsave, GetBlock]
  simp only [htake]
  rw [if_neg (by simpa using formatUint_ne_nil n)]
  rw [trimBytes_digits _ (formatUint_all_digits n)]
  rw [parseInt64_formatUint n hn63]
  have hu : intToUInt64 (n : Int) = n := by
    rw [intToUInt64, Int.emod_eq_of_lt (by positivity)
      (by exact_mod_cast (by calc n < 2 ^ 63 := hn63
                               _ < 2 ^ 64 := by norm_num : n < 2 ^ 64))]
    simp
  show some (intToUInt64 (n : Int)) = some n
  rw [hu]

/-! ## Data model of the operator -/

/-- A chain block header: the two fields the operator reads. -/
structure Header where
  number : Int
  root : Nat
deriving DecidableEq, Repr

/-- Proof of execution: the fields packed into the on-chain proof payload. -/
structure Poe where
  batchHash : Nat
  newStateRoot : Nat
  prevStateRoot : Nat
deriving DecidableEq, Repr

/-- Prover RPC response: proof plus batch metadata. -/
structure PoeResponse where
  poe : Poe
  batchId : Nat
  startBlock : Nat
  endBlock : Nat
deriving DecidableEq, Repr

/-- The canonical signed message submitted to the aggregator. -/
structure StateHeader where
  identifier : Int
  metadata : Option (List Nat)
  state : List Nat
  quorumNumbers : List Nat
  quorumThresholdPercentages : List Nat
  referenceBlockNumber : Nat
deriving DecidableEq, Repr

/-- Two's-complement wrap into int64 (Go `big.Int.Int64`, int64 overflow). -/
def wrapInt64 (i : Int) : Int :=
  (i + 2 ^ 63) % 2 ^ 64 - 2 ^ 63

/-- Go conversion `uint32(i)` of an int64: the low 32 bits. -/
def intToUInt32 (i : Int) : Nat :=
  (i % (2 ^ 32 : Int)).toNat

/-- The reference block number computed by operator variant 2:
`uint32(blockHeader.Number.Int64() - 1)`. -/
def refBlockNumber (headNumber : Int) : Nat :=
  intToUInt32 (wrapInt64 (wrapInt64 headNumber - 1))

/-! ## Simulation-mode proof retrieval (`proverGetPoe`, variant 2) -/

/-- Big-endian value of a byte string (`big.Int.SetBytes`, and
`binary.BigEndian.Uint64` on an 8-byte slice). -/
def beBytes (l : List Nat) : Nat :=
  l.foldl (fun a b => a * 256 + b) 0

/-- Go slice expression `l[start : start + len]`: `none` models the
out-of-range panic. -/
def sliceRange (l : List Nat) (start len : Nat) : Option (List Nat) :=
  if start + len ≤ l.length then some ((l.drop start).take len) else none

/-- Decode one `commitBatch` chunk: `chunk[0]` is the record count, record
`i` occupies bytes `1 + 60*i ..` of the chunk, and its first 8 bytes are a
big-endian block number.  `none` models an out-of-range panic (empty chunk
or truncated record). -/
def chunkBlocks (chunk : List Nat) : Option (List Nat) :=
  match chunk with
  | [] => none
  | count :: rest =>
    (List.range count).mapM fun i => (sliceRange rest (i * 60) 8).map beBytes

/-- The start/end accumulation of the simulation decode loop: `startBlock`
is overwritten while it is still zero, every later block number lands in
`endBlock`. -/
def startEndFold (blocks : List Nat) : Nat × Nat :=
  blocks.foldl (fun se b => if se.1 = 0 then (b, se.2) else (se.1, b)) (0, 0)

/-- Environment of the simulation path: the ABI-decoded `_chunks` argument
of the triggering transaction (`none` models a transaction-fetch or
ABI-decode error) and the chain's header oracle (state root per block
number; `none` models an RPC error). -/
structure SimEnv where
  txChunks : Option (List (List Nat))
  headerRoot : Nat → Option Nat

/-- Simulation branch of `proverGetPoe` (variant 2).  The outer `none`
models a runtime panic (chunk indexing, `topics[2]`); `Except.error` models
a returned error. -/
def proverGetPoeSim (env : SimEnv) (topics : List Nat) :
    Option (Except Unit PoeResponse) :=
  match env.txChunks with
  | none => some (Except.error ())
  | some chunks =>
    match chunks.mapM chunkBlocks with
    | none => none
    | some blockLists =>
      let se := startEndFold blockLists.flatten
      match env.headerRoot se.1 with
      | none => some (Except.error ())
      | some startRoot =>
        match env.headerRoot se.2 with
        | none => some (Except.error ())
        | some endRoot =>
          match topics.get? 2 with
          | none => none
          | some batchHash =>
            some (Except.ok {
              poe := { batchHash := batchHash, newStateRoot := endRoot,
                       prevStateRoot := startRoot }
              batchId := 0
              startBlock := se.1
              endBlock := se.2 })

/-- Verdict of the live prover RPC `GetPoe`. -/
inductive ProofResult where
  | err : ProofResult
  | skip : ProofResult
  | ok : PoeResponse → ProofResult
deriving DecidableEq, Repr

/-- `proverGetPoe` (variant 2): the simulation branch decodes the
transaction locally and never skips; the live branch logs `topics[2]` (a
panic — `none` — on short topics) and forwards the prover's verdict. -/
def proverGetPoe (simulation : Bool) (simEnv : SimEnv)
    (liveResult : ProofResult) (topics : List Nat) : Option ProofResult :=
  if simulation then
    (proverGetPoeSim simEnv topics).map fun r =>
      match r with
      | Except.error _ => ProofResult.err
      | Except.ok poe => ProofResult.ok poe
  else
    match topics.get? 2 with
    | none => none
    | some _ => some liveResult

/-! ## The log handler (`OnNewLog`) -/

/-- A processing step of `OnNewLog`, recorded for temporal claims. -/
inductive Action where
  | fetchHead : Action
  | getPoe : Action
  | marshalMd : Action
  | buildHeader : Action
  | sign : Action
  | submit : Action
deriving DecidableEq, Repr

/-- Environment of `OnNewLog` (variant 2): chain-head oracle, operating
mode, prover verdict, and the abstracted external encoders (JSON metadata,
proof packing, header digest) plus the aggregator's verdict. -/
structure OperatorEnv where
  headHeader : Option Header
  simulation : Bool
  simEnv : SimEnv
  liveResult : ProofResult
  identifier : Int
  quorumNumbers : List Nat
  marshal : Nat → Nat → Nat → Option (List Nat)
  pack : Poe → List Nat
  digest : StateHeader → Option (List Nat)
  submitOk : Bool

/-- `OnNewLog` (variant 2).  `none` models a runtime panic; otherwise the
pair of the returned error value and the trace of steps taken.  `ok none`
is the skip path; `ok (some h)` is a successfully submitted header. -/
def OnNewLog2 (env : OperatorEnv) (topics : List Nat) :
    Option (Except Unit (Option StateHeader) × List Action) :=
  match env.headHeader with
  | none => some (Except.error (), [Action.fetchHead])
  | some hdr =>
    match proverGetPoe env.simulation env.simEnv env.liveResult topics with
    | none => none
    | some ProofResult.err =>
      some (Except.error (), [Action.fetchHead, Action.getPoe])
    | some ProofResult.skip =>
      some (Except.ok none, [Action.fetchHead, Action.getPoe])
    | some (ProofResult.ok poe) =>
      match env.marshal poe.batchId poe.startBlock poe.endBlock with
      | none =>
        some (Except.error (), [Action.fetchHead, Action.getPoe, Action.marshalMd])
      | some mdBytes =>
        let header : StateHeader := {
          identifier := env.identifier
          metadata := some mdBytes
          state := env.pack poe.poe
          quorumNumbers := env.quorumNumbers
          quorumThresholdPercentages := [0]
          referenceBlockNumber := refBlockNumber hdr.number }
        match env.digest header with
        | none =>
          some (Except.error (),
            [Action.fetchHead, Action.getPoe, Action.marshalMd, Action.buildHeader])
        | some _ =>
          if env.submitOk then
            some (Except.ok (some header),
              [Action.fetchHead, Action.getPoe, Action.marshalMd,
               Action.buildHeader, Action.sign, Action.submit])
          else
            some (Except.error (),
              [Action.fetchHead, Action.getPoe, Action.marshalMd,
               Action.buildHeader, Action.sign, Action.submit])

/-- Environment of `OnNewLog` (variant 1): live prover keyed by block
number, abstracted packing and digest, aggregator verdict. -/
structure Operator1Env where
  getPoeByBlock : Nat → Except Unit Poe
  pack : Poe → List Nat
  digest : StateHeader → Option (List Nat)
  submitOk : Bool

/-- `OnNewLog` (variant 1, `operator/operator.go`): parses the block number
from `log.Data[:32]` (a panic — `none` — when the data is shorter than 32
bytes), fetches the proof, and builds a header whose reference block number
is the constant 0. -/
def OnNewLog1 (env : Operator1Env) (logData : List Nat) :
    Option (Except Unit StateHeader) :=
  match sliceRange logData 0 32 with
  | none => none
  | some bs =>
    let blockNumber := beBytes bs % 2 ^ 64
    match env.getPoeByBlock blockNumber with
    | Except.error _ => some (Except.error ())
    | Except.ok poe =>
      let header : StateHeader := {
        identifier := 1
        metadata := none
        state := env.pack poe
        quorumNumbers := [0]
        quorumThresholdPercentages := [0]
        referenceBlockNumber := 0 }
      match env.digest header with
      | none => some (Except.error ())
      | some _ =>
        if env.submitOk then some (Except.ok header)
        else some (Except.error ())

/-! ## The scan cycle of the task fetcher

Modelled from the spec: `LogTracer.Run` is not among the sources — only its
configuration in `NewOperator` (`Wait: 5`, `Max: 100`, `SkipOnError: true`)
is.  Section 4.1 of the spec defines the cycle: target =
min(checkpoint + maxBlocksPerWindow, head − confirmationLag); fetch the logs
in (checkpoint, target]; dispatch in ascending (block, index) order; under
the skip-tolerant policy handler errors are logged and the window still
succeeds, otherwise the cycle aborts without advancing; on success the
checkpoint becomes the target. -/

/-- Modelled from the spec: the per-cycle scan target (§4.1). -/
def scanTarget (checkpoint head maxBlocks lag : Nat) : Nat :=
  min (checkpoint + maxBlocks) (head - lag)

/-- LogTracer configuration from `NewOperator` (variant 2): `Max: 100`. -/
def operatorMaxBlocksPerWindow : Nat := 100

/-- LogTracer configuration from `NewOperator` (variant 2): `Wait: 5`. -/
def operatorConfirmationLag : Nat := 5

/-- Ascending (block number, log index) order on events. -/
def evLt (a b : Nat × Nat) : Prop :=
  a.1 < b.1 ∨ (a.1 = b.1 ∧ a.2 < b.2)

/-- Outcome of one scan cycle: the events dispatched, in order, and the
checkpoint after the cycle. -/
structure CycleResult where
  dispatched : List (Nat × Nat)
  finalCheckpoint : Nat
deriving DecidableEq, Repr

/-- The logs of the window `(checkpoint, target]`, in the order the chain
returned them. -/
def windowEvents (checkpoint target : Nat) (events : List (Nat × Nat)) :
    List (Nat × Nat) :=
  events.filter fun e => checkpoint < e.1 && e.1 ≤ target

/-- Modelled from the spec: one scan cycle of the LogTracer (§4.1).
`events` are the chain's logs as (block number, log index); `handlerOk`
is the verdict of `OnNewLog` per event.  A skip-tolerant window dispatches
everything and advances; a strict window stops at the first failure and
keeps the checkpoint. -/
def runCycle (skipOnError : Bool) (checkpoint head maxBlocks lag : Nat)
    (events : List (Nat × Nat)) (handlerOk : Nat × Nat → Bool) : CycleResult :=
  if scanTarget checkpoint head maxBlocks lag ≤ checkpoint then
    { dispatched := [], finalCheckpoint := checkpoint }
  else if skipOnError ||
      (windowEvents checkpoint (scanTarget checkpoint head maxBlocks lag) events).all
        handlerOk then
    { dispatched := windowEvents checkpoint (scanTarget checkpoint head maxBlocks lag) events
      finalCheckpoint := scanTarget checkpoint head maxBlocks lag }
  else
    { dispatched :=
        (windowEvents checkpoint (scanTarget checkpoint head maxBlocks lag) events).takeWhile
            handlerOk ++
          ((windowEvents checkpoint (scanTarget checkpoint head maxBlocks lag)
                events).drop
              ((windowEvents checkpoint (scanTarget checkpoint head maxBlocks lag)
                  events).takeWhile handlerOk).length).take 1
      finalCheckpoint := checkpoint }

/-! ## Attestation renewal timing (`checkNext`, variant 2) -/

/-- The renewal safety margin hard-coded in `checkNext`: 300 seconds. -/
def renewalSafetyMargin : Int := 300

/-- The renewal deadline computed by `checkNext`:
`prover.Time.Int64() + validSecs.Int64()` — each conversion from the
on-chain `big.Int` and the sum itself wrap in int64. -/
def renewalDeadline (lastRegisteredTime validSecs : Int) : Int :=
  wrapInt64 (wrapInt64 lastRegisteredTime + wrapInt64 validSecs)

/-- Nanoseconds actually slept by `checkNext`: when the deadline is more
than 300 seconds away (`now + 300` also wrapping in int64), it sleeps
`time.Duration(deadline - now - 300) * time.Second` — int64-nanosecond
arithmetic, every step wrapping — and `time.Sleep` treats a non-positive
duration as no sleep. -/
def checkNextSleepNanos (deadline now : Int) : Int :=
  if deadline > wrapInt64 (now + 300) then
    max 0 (wrapInt64 (wrapInt64 (wrapInt64 (deadline - now) - 300) * 1000000000))
  else 0

/-- Whole seconds slept by `checkNext`. -/
def checkNextSleep (deadline now : Int) : Int :=
  checkNextSleepNanos deadline now / 1000000000

/-- The absolute time at which `checkNext` issues its renewal. -/
def renewalTime (lastRegisteredTime validSecs now : Int) : Int :=
  now + checkNextSleep (renewalDeadline lastRegisteredTime validSecs) now

/-- In-range integers are fixed by the int64 wrap. -/
theorem wrapInt64_eq_self (x : Int) (h1 : -(2 ^ 63) ≤ x) (h2 : x < 2 ^ 63) :
    wrapInt64 x = x := by
  rw [wrapInt64]
  omega

/-- Within int64/Duration range the sleep is exactly
max(0, deadline − now − 300) seconds. -/
theorem checkNextSleep_eq (d now : Int)
    (hd0 : 0 ≤ d) (hd : d < 2 ^ 63)
    (hnow : 0 ≤ now) (hnow2 : now + 300 < 2 ^ 63)
    (hrem : (d - now - 300) * 1000000000 < 2 ^ 63) :
    checkNextSleep d now = max 0 (d - now - 300) := by
  have hw300 : wrapInt64 (now + 300) = now + 300 :=
    wrapInt64_eq_self _ (by omega) hnow2
  rw [checkNextSleep, checkNextSleepNanos, hw300]
  by_cases hgt : d > now + 300
  · rw [if_pos hgt]
    have hw1 : wrapInt64 (d - now) = d - now :=
      wrapInt64_eq_self _ (by omega) (by omega)
    have hw2 : wrapInt64 (d - now - 300) = d - now - 300 :=
      wrapInt64_eq_self _ (by omega) (by omega)
    rw [hw1, hw2]
    have hx : 0 ≤ (d - now - 300) * 1000000000 :=
      mul_nonneg (by omega) (by norm_num)
    have hw3 : wrapInt64 ((d - now - 300) * 1000000000) =
        (d - now - 300) * 1000000000 :=
      wrapInt64_eq_self _ (by omega) hrem
    rw [hw3, max_eq_right hx, Int.mul_ediv_cancel _ (by norm_num),
      max_eq_right (by omega)]
  · rw [if_neg hgt, max_eq_left (by omega : d - now - 300 ≤ 0)]
    norm_num

/-! ## Startup sequencing (`Start`, variant 2) -/

/-- A step of `Start`, recorded for the startup-ordering claim. -/
inductive StartStep where
  | checkSimulation : StartStep
  | checkRegistered : StartStep
  | registerAttestation : StartStep
  | startMetrics : StartStep
  | runTaskFetcher : StartStep
deriving DecidableEq, Repr

/-- Environment of `Start` (variant 2): contract simulation flag (`none`
models an RPC error), local simulation flag, coordination-layer registry
answer, operator-id fetch, attestation pass and event-loop outcomes. -/
structure StartEnv where
  simulationRemote : Option Bool
  simulationLocal : Bool
  isRegistered : Option Bool
  operatorIdOk : Bool
  attestationOk : Bool
  runOk : Bool
deriving DecidableEq, Repr

/-- `checkIsRegistered` (variant 2): registry query, eligibility check,
operator-id fetch. -/
def checkIsRegistered (env : StartEnv) : Except Unit Unit :=
  match env.isRegistered with
  | none => Except.error ()
  | some false => Except.error ()
  | some true => if env.operatorIdOk then Except.ok () else Except.error ()

/-- `Start` (variant 2): simulation-mode consistency check, registration
check, first attestation pass, metrics, then the main event loop, each step
aborting the sequence on error. -/
def StartOp (env : StartEnv) : Except Unit Unit × List StartStep :=
  match env.simulationRemote with
  | none => (Except.error (), [StartStep.checkSimulation])
  | some r =>
    if r = env.simulationLocal then
      match checkIsRegistered env with
      | Except.error _ =>
        (Except.error (), [StartStep.checkSimulation, StartStep.checkRegistered])
      | Except.ok _ =>
        if env.attestationOk then
          ((if env.runOk then Except.ok () else Except.error ()),
           [StartStep.checkSimulation, StartStep.checkRegistered,
            StartStep.registerAttestation, StartStep.startMetrics,
            StartStep.runTaskFetcher])
        else
          (Except.error (),
           [StartStep.checkSimulation, StartStep.checkRegistered,
            StartStep.registerAttestation])
    else (Except.error (), [StartStep.checkSimulation])

/-- A step of `Start` (variant 1, `operator/operator.go`). -/
inductive Start1Step where
  | registerEigenlayer : Start1Step
  | registerAvs : Start1Step
  | registerAttestation : Start1Step
  | checkRegistered : Start1Step
  | runTaskFetcher : Start1Step
deriving DecidableEq, Repr

/-- Environment of `Start` (variant 1). -/
structure Start1Env where
  eigenOk : Bool
  avsOk : Bool
  attestationOk : Bool
  isRegistered : Option Bool
  runOk : Bool
deriving DecidableEq, Repr

/-- `Start` (variant 1): EigenLayer registration, AVS registration, first
attestation pass, coordination-layer registration check, then the main
event loop, each step aborting the sequence on error. -/
def StartOp1 (env : Start1Env) : Except Unit Unit × List Start1Step :=
  if env.eigenOk then
    if env.avsOk then
      if env.attestationOk then
        match env.isRegistered with
        | some true =>
          ((if env.runOk then Except.ok () else Except.error ()),
           [Start1Step.registerEigenlayer, Start1Step.registerAvs,
            Start1Step.registerAttestation, Start1Step.checkRegistered,
            Start1Step.runTaskFetcher])
        | _ =>
          (Except.error (),
           [Start1Step.registerEigenlayer, Start1Step.registerAvs,
            Start1Step.registerAttestation, Start1Step.checkRegistered])
      else
        (Except.error (),
         [Start1Step.registerEigenlayer, Start1Step.registerAvs,
          Start1Step.registerAttestation])
    else
      (Except.error (), [Start1Step.registerEigenlayer, Start1Step.registerAvs])
  else (Except.error (), [Start1Step.registerEigenlayer])

/-! ## The attestation renewal goroutine -/

/-- An observable event of the renewal goroutine. -/
inductive LoopEvent where
  | ranCheck : LoopEvent
  | loggedError : LoopEvent
  | slept : LoopEvent
deriving DecidableEq, Repr

/-- The renewal goroutine after `n` iterations: each iteration runs
`checkNext` and logs a failure; the loop wrapper inserts nothing — in
particular no sleep — between iterations, and no outcome terminates it. -/
def renewalLoopTrace (fails : Nat → Bool) : Nat → List LoopEvent
  | 0 => []
  | n + 1 =>
    renewalLoopTrace fails n ++
      (if fails n then [LoopEvent.ranCheck, LoopEvent.loggedError]
       else [LoopEvent.ranCheck])

/-! ## Claim theorems -/

/-- C3: when the checkpoint record is absent (the offset file is empty),
`GetBlock` returns block 0 and no error — scanning starts at block 0 and
absence is not treated as a failure. -/
theorem getBlock_absent_record : GetBlock [] = some 0 := rfl

/-- C2 counterexample: after saving 1000, saving 5 overwrites only the
first byte of the non-truncated record, so the read-back is 5000, not 5;
and even on a fresh record a 17-digit block number is read back truncated
to its first 16 digits, because `GetBlock` reads a 16-byte buffer. -/
theorem checkpoint_roundtrip_counterexample :
    GetBlock (SaveBlock 5 (SaveBlock 1000 [])) = some 5000 ∧ (5000 : Nat) ≠ 5 ∧
    GetBlock (SaveBlock (10 ^ 16) []) = some (10 ^ 15) ∧
    (10 ^ 15 : Nat) ≠ 10 ^ 16 :=
  ⟨rfl, by decide, by decide, by decide⟩

/-- Witness for the C2 round-trip at block 7 on a fresh record. -/
theorem getBlock_saveBlock_witness :
    7 < 10 ^ 16 ∧ ([] : List Nat).length ≤ (formatUint 7).length ∧
    GetBlock (SaveBlock 7 []) = some 7 :=
  ⟨by norm_num, by decide, getBlock_saveBlock 7 [] (by norm_num) (by decide)⟩

/-- C6 (amended): within int64 range — the deadline sum fitting int64 and
the remaining time below 2^63 nanoseconds (about 292 years) — the renewal
step computes deadline = lastRegisteredTime + validityWindow and sleeps
exactly max(0, deadline − now − 300) seconds; with a 1000-second validity
window a registration at `t0` is renewed no earlier than `t0 + 700`, and
within the safety margin of (or past) the deadline it proceeds
immediately.  Beyond that range the int64 deadline sum and the
`time.Duration` nanosecond multiplication wrap (see the counterexample). -/
theorem renewal_timing (t0 now d : Int)
    (hd0 : 0 ≤ d) (hd : d < 2 ^ 63)
    (hnow : 0 ≤ now) (hnow2 : now + 300 < 2 ^ 63)
    (hrem : (d - now - 300) * 1000000000 < 2 ^ 63)
    (ht0 : 0 ≤ t0) (hsum : t0 + 1000 < 2 ^ 63)
    (hrem2 : (t0 + 1000 - now - 300) * 1000000000 < 2 ^ 63) :
    checkNextSleep d now = max 0 (d - now - renewalSafetyMargin) ∧
    renewalDeadline t0 1000 = t0 + 1000 ∧
    renewalTime t0 1000 now ≥ t0 + 700 ∧
    (d ≤ now + renewalSafetyMargin → checkNextSleep d now = 0) := by
  have hdl : renewalDeadline t0 1000 = t0 + 1000 := by
    rw [renewalDeadline, wrapInt64_eq_self t0 (by omega) (by omega),
      wrapInt64_eq_self 1000 (by omega) (by omega),
      wrapInt64_eq_self _ (by omega) hsum]
  refine ⟨?_, hdl, ?_, ?_⟩
  · rw [renewalSafetyMargin]
    exact checkNextSleep_eq d now hd0 hd hnow hnow2 hrem
  · rw [renewalTime, hdl,
      checkNextSleep_eq (t0 + 1000) now (by omega) hsum hnow hnow2 hrem2]
    omega
  · intro h
    rw [renewalSafetyMargin] at h
    rw [checkNextSleep_eq d now hd0 hd hnow hnow2 hrem]
    omega

/-- C6 counterexample: with about 317000 years of validity remaining the
nanosecond multiplication wraps, so the slept time is not
max(0, deadline − now − 300); and a deadline sum overflowing int64 wraps
instead of being the mathematical sum. -/
theorem renewal_timing_counterexample :
    checkNextSleep 10000000000000 0 ≠
      max 0 (10000000000000 - 0 - renewalSafetyMargin) ∧
    renewalDeadline (2 ^ 62) (2 ^ 62 + 400) ≠ 2 ^ 62 + (2 ^ 62 + 400) := by
  constructor <;> decide

/-- Witness for C6: at `t0 = 0`, `now = 800` the deadline 1000 is within
the margin and the renewal proceeds immediately. -/
theorem renewal_timing_witness :
    checkNextSleep 1000 800 = max 0 (1000 - 800 - renewalSafetyMargin) ∧
    renewalDeadline 0 1000 = 0 + 1000 ∧
    renewalTime 0 1000 800 ≥ 0 + 700 ∧
    checkNextSleep 1000 800 = 0 := by
  have h := renewal_timing 0 800 1000 (by norm_num) (by norm_num) (by norm_num)
    (by norm_num) (by norm_num) (by norm_num) (by norm_num) (by norm_num)
  exact ⟨h.1, h.2.1, h.2.2.1, h.2.2.2 (by decide)⟩

/-- C7: in both operator variants the main event loop runs only after the
coordination-layer registration check and the first attestation pass both
succeeded — a trace reaching the event loop is exactly the full startup
sequence — and an unregistered operator makes `Start` return an error
without reaching the event loop. -/
theorem start_gating (env : StartEnv) (env1 : Start1Env) :
    (StartStep.runTaskFetcher ∈ (StartOp env).2 →
      (StartOp env).2 =
        [StartStep.checkSimulation, StartStep.checkRegistered,
         StartStep.registerAttestation, StartStep.startMetrics,
         StartStep.runTaskFetcher] ∧
      env.isRegistered = some true ∧ env.attestationOk = true) ∧
    (env.isRegistered = some false →
      (StartOp env).1 = Except.error () ∧
      StartStep.runTaskFetcher ∉ (StartOp env).2) ∧
    (Start1Step.runTaskFetcher ∈ (StartOp1 env1).2 →
      (StartOp1 env1).2 =
        [Start1Step.registerEigenlayer, Start1Step.registerAvs,
         Start1Step.registerAttestation, Start1Step.checkRegistered,
         Start1Step.runTaskFetcher] ∧
      env1.isRegistered = some true ∧ env1.attestationOk = true) ∧
    (env1.isRegistered = some false →
      (StartOp1 env1).1 = Except.error () ∧
      Start1Step.runTaskFetcher ∉ (StartOp1 env1).2) := by
  refine ⟨?_, ?_, ?_, ?_⟩
  · obtain ⟨sr, sl, ir, oid, att, run⟩ := env
    rcases sr with _ | sr <;> rcases ir with _ | ir <;>
      cases sl <;> cases oid <;> cases att <;> cases run <;>
      first
        | (cases sr <;> cases ir <;> decide)
        | (cases sr <;> decide)
        | (cases ir <;> decide)
        | decide
  · obtain ⟨sr, sl, ir, oid, att, run⟩ := env
    rcases sr with _ | sr <;> rcases ir with _ | ir <;>
      cases sl <;> cases oid <;> cases att <;> cases run <;>
      first
        | (cases sr <;> cases ir <;> decide)
        | (cases sr <;> decide)
        | (cases ir <;> decide)
        | decide
  · obtain ⟨e1, a1, t1, ir1, r1⟩ := env1
    rcases ir1 with _ | ir1 <;>
      cases e1 <;> cases a1 <;> cases t1 <;> cases r1 <;>
      first
        | (cases ir1 <;> decide)
        | decide
  · obtain ⟨e1, a1, t1, ir1, r1⟩ := env1
    rcases ir1 with _ | ir1 <;>
      cases e1 <;> cases a1 <;> cases t1 <;> cases r1 <;>
      first
        | (cases ir1 <;> decide)
        | decide

/-- The fully successful startup environment. -/
def startEnvGood : StartEnv :=
  { simulationRemote := some false, simulationLocal := false,
    isRegistered := some true, operatorIdOk := true,
    attestationOk := true, runOk := true }

/-- A startup environment whose operator is not registered. -/
def startEnvUnregistered : StartEnv :=
  { simulationRemote := some false, simulationLocal := false,
    isRegistered := some false, operatorIdOk := true,
    attestationOk := true, runOk := true }

/-- The fully successful variant-1 startup environment. -/
def start1EnvGood : Start1Env :=
  { eigenOk := true, avsOk := true, attestationOk := true,
    isRegistered := some true, runOk := true }

/-- A variant-1 startup environment whose operator is not registered. -/
def start1EnvUnregistered : Start1Env :=
  { eigenOk := true, avsOk := true, attestationOk := true,
    isRegistered := some false, runOk := true }

/-- Witness for C7 at concrete environments: a run reaching the event loop
has the full startup trace, and an unregistered operator fails `Start`, in
both variants. -/
theorem start_gating_witness :
    ((StartOp startEnvGood).2 =
        [StartStep.checkSimulation, StartStep.checkRegistered,
         StartStep.registerAttestation, StartStep.startMetrics,
         StartStep.runTaskFetcher] ∧
      startEnvGood.isRegistered = some true ∧ startEnvGood.attestationOk = true) ∧
    ((StartOp startEnvUnregistered).1 = Except.error () ∧
      StartStep.runTaskFetcher ∉ (StartOp startEnvUnregistered).2) ∧
    ((StartOp1 start1EnvGood).2 =
        [Start1Step.registerEigenlayer, Start1Step.registerAvs,
         Start1Step.registerAttestation, Start1Step.checkRegistered,
         Start1Step.runTaskFetcher] ∧
      start1EnvGood.isRegistered = some true ∧
      start1EnvGood.attestationOk = true) ∧
    ((StartOp1 start1EnvUnregistered).1 = Except.error () ∧
      Start1Step.runTaskFetcher ∉ (StartOp1 start1EnvUnregistered).2) :=
  ⟨(start_gating startEnvGood start1EnvGood).1 (by decide),
   (start_gating startEnvUnregistered start1EnvGood).2.1 (by decide),
   (start_gating startEnvGood start1EnvGood).2.2.1 (by decide),
   (start_gating startEnvGood start1EnvUnregistered).2.2.2 (by decide)⟩

/-- C8: the renewal goroutine never sleeps between iterations, runs every
iteration regardless of earlier failures, logs exactly the failing
iterations, and no iteration count terminates it — iteration `n + 1`
extends the trace of iteration `n` immediately. -/
theorem renewal_loop_no_backoff (fails : Nat → Bool) (n : Nat) :
    LoopEvent.slept ∉ renewalLoopTrace fails n ∧
    (renewalLoopTrace fails n).count LoopEvent.ranCheck = n ∧
    (renewalLoopTrace fails n).count LoopEvent.loggedError =
      ((List.range n).filter fails).length ∧
    renewalLoopTrace fails (n + 1) =
      renewalLoopTrace fails n ++
        (if fails n then [LoopEvent.ranCheck, LoopEvent.loggedError]
         else [LoopEvent.ranCheck]) := by
  refine ⟨?_, ?_, ?_, rfl⟩
  · induction n with
    | zero => simp [renewalLoopTrace]
    | succ n ih =>
      simp only [renewalLoopTrace, List.mem_append]
      rintro (h | h)
      · exact ih h
      · by_cases hf : fails n <;> simp [hf] at h
  · induction n with
    | zero => simp [renewalLoopTrace]
    | succ n ih =>
      by_cases hf : fails n <;>
        simp [renewalLoopTrace, hf, List.count_append, ih, List.count_cons,
          List.count_nil]
  · induction n with
    | zero => simp [renewalLoopTrace]
    | succ n ih =>
      rw [renewalLoopTrace, List.count_append, ih, List.range_succ,
        List.filter_append, List.length_append]
      by_cases hf : fails n <;>
        simp [hf, List.count_cons, List.count_nil]

/-- C4: a skip verdict from proof retrieval makes `OnNewLog` return nil
with no header build, no signing and no submission, and a skip-tolerant
window still advances the checkpoint to its target when it completes. -/
theorem skip_semantics (env : OperatorEnv) (topics : List Nat) (hdr : Header)
    (hhead : env.headHeader = some hdr)
    (hskip : proverGetPoe env.simulation env.simEnv env.liveResult topics =
      some ProofResult.skip) :
    OnNewLog2 env topics =
      some (Except.ok none, [Action.fetchHead, Action.getPoe]) ∧
    (∀ r tr, OnNewLog2 env topics = some (r, tr) →
      Action.buildHeader ∉ tr ∧ Action.sign ∉ tr ∧ Action.submit ∉ tr) ∧
    (∀ C H mx lg evs f, C < scanTarget C H mx lg →
      (runCycle true C H mx lg evs f).finalCheckpoint = scanTarget C H mx lg) := by
  have h1 : OnNewLog2 env topics =
      some (Except.ok none, [Action.fetchHead, Action.getPoe]) := by
    simp [OnNewLog2, hhead, hskip]
  refine ⟨h1, ?_, ?_⟩
  · intro r tr htr
    rw [h1] at htr
    simp only [Option.some.injEq, Prod.mk.injEq] at htr
    obtain ⟨-, rfl⟩ := htr
    refine ⟨by decide, by decide, by decide⟩
  · intro C H mx lg evs f h
    rw [runCycle, if_neg (Nat.not_le.mpr h)]
    simp

/-- A live-mode environment whose prover reports skip. -/
def envSkip : OperatorEnv :=
  { headHeader := some { number := 160, root := 0 }
    simulation := false
    simEnv := { txChunks := none, headerRoot := fun _ => none }
    liveResult := ProofResult.skip
    identifier := 1
    quorumNumbers := [0]
    marshal := fun _ _ _ => some []
    pack := fun _ => []
    digest := fun _ => some []
    submitOk := true }

/-- Witness for C4: the skip path at a concrete environment. -/
theorem skip_semantics_witness :
    OnNewLog2 envSkip [1, 2, 3] =
      some (Except.ok none, [Action.fetchHead, Action.getPoe]) ∧
    (runCycle true 100 160 100 5 [] fun _ => true).finalCheckpoint =
      scanTarget 100 160 100 5 :=
  ⟨(skip_semantics envSkip [1, 2, 3] { number := 160, root := 0 } rfl rfl).1,
   (skip_semantics envSkip [1, 2, 3] { number := 160, root := 0 } rfl rfl).2.2
     100 160 100 5 [] (fun _ => true) (by decide)⟩

instance evLtDec : ∀ a b : Nat × Nat, Decidable (evLt a b) := fun a b =>
  decidable_of_iff (a.1 < b.1 ∨ (a.1 = b.1 ∧ a.2 < b.2)) Iff.rfl

/-- C9: with window 100 and confirmation lag 5 the scan target is
min(C + 100, H − 5); at checkpoint 100 and head 160 the target is 155, the
dispatched events are exactly the window's events in ascending (block,
index) order and lie in blocks 101–155, the checkpoint becomes 155 when the
window completes under the skip-tolerant policy, and a non-tolerant window
advances only when every dispatch succeeded. -/
theorem scan_cycle (events : List (Nat × Nat)) (handlerOk : Nat × Nat → Bool)
    (hsorted : events.Pairwise evLt) :
    (∀ C H, scanTarget C H operatorMaxBlocksPerWindow operatorConfirmationLag =
      min (C + 100) (H - 5)) ∧
    scanTarget 100 160 operatorMaxBlocksPerWindow operatorConfirmationLag = 155 ∧
    (runCycle true 100 160 100 5 events handlerOk).dispatched =
      windowEvents 100 155 events ∧
    (runCycle true 100 160 100 5 events handlerOk).dispatched.Pairwise evLt ∧
    (∀ e ∈ (runCycle true 100 160 100 5 events handlerOk).dispatched,
      100 < e.1 ∧ e.1 ≤ 155) ∧
    (runCycle true 100 160 100 5 events handlerOk).finalCheckpoint = 155 ∧
    ((windowEvents 100 155 events).all handlerOk = true →
      (runCycle false 100 160 100 5 events handlerOk).finalCheckpoint = 155) ∧
    ((windowEvents 100 155 events).all handlerOk = false →
      (runCycle false 100 160 100 5 events handlerOk).finalCheckpoint = 100) := by
  have ht : scanTarget 100 160 100 5 = 155 := by decide
  have hrun : runCycle true 100 160 100 5 events handlerOk =
      { dispatched := windowEvents 100 155 events, finalCheckpoint := 155 } := by
    rw [runCycle, ht, if_neg (by omega), if_pos (by simp)]
  refine ⟨fun C H => rfl, by decide, ?_, ?_, ?_, ?_, ?_, ?_⟩
  · rw [hrun]
  · rw [hrun]
    exact hsorted.sublist (List.filter_sublist events)
  · intro e he
    rw [hrun] at he
    simp only [windowEvents, List.mem_filter, Bool.and_eq_true,
      decide_eq_true_eq] at he
    exact he.2
  · rw [hrun]
  · intro hall
    rw [runCycle, ht, if_neg (by omega), if_pos (by simp [hall])]
  · intro hall
    rw [runCycle, ht, if_neg (by omega), if_neg (by simp [hall])]

/-- A sorted event list for the C9 window example. -/
def eventsW : List (Nat × Nat) := [(101, 0), (120, 0), (120, 1), (155, 3)]

/-- Witness for C9 at a concrete sorted event list. -/
theorem scan_cycle_witness :
    (runCycle true 100 160 100 5 eventsW fun _ => true).dispatched =
      windowEvents 100 155 eventsW ∧
    (runCycle true 100 160 100 5 eventsW fun _ => true).finalCheckpoint = 155 :=
  ⟨(scan_cycle eventsW (fun _ => true) (by decide)).2.2.1,
   (scan_cycle eventsW (fun _ => true) (by decide)).2.2.2.2.2.1⟩

/-! ### Helpers for the simulation decode -/

theorem mapM_of_all_some {α β : Type} (f : α → Option β) (g : α → β) :
    ∀ l : List α, (∀ a ∈ l, f a = some (g a)) → l.mapM f = some (l.map g) := by
  intro l
  induction l with
  | nil => intro _; rfl
  | cons a l ih =>
    intro h
    rw [List.mapM_cons, h a (by simp), ih fun x hx => h x (by simp [hx])]
    rfl

/-- Once `startBlock` is nonzero it is frozen and `endBlock` tracks the
last element seen. -/
theorem startEndFold_go (l : List Nat) :
    ∀ s e : Nat, s ≠ 0 →
      l.foldl (fun se b => if se.1 = 0 then (b, se.2) else (se.1, b)) (s, e) =
        (s, l.getLastD e) := by
  induction l with
  | nil => intro s e _; rfl
  | cons x l ih =>
    intro s e hs
    rw [List.foldl_cons]
    dsimp only
    rw [if_neg hs, ih s x hs, List.getLastD_cons]

/-- The committed block range as the spec words it: the first committed
block of the batch. -/
def specFirstBlock (blocks : List Nat) : Nat := blocks.headD 0

/-- The committed block range as the spec words it: the last committed
block of the batch. -/
def specLastBlock (blocks : List Nat) : Nat := blocks.getLastD 0

theorem getLastD_irrel (l : List Nat) (h : l ≠ []) (d d' : Nat) :
    l.getLastD d = l.getLastD d' := by
  cases l with
  | nil => exact absurd rfl h
  | cons x xs => rfl

theorem startEndFold_firstLast (b : Nat) (rest : List Nat)
    (hb : b ≠ 0) (hrest : rest ≠ []) :
    startEndFold (b :: rest) =
      (specFirstBlock (b :: rest), specLastBlock (b :: rest)) := by
  rw [startEndFold, List.foldl_cons]
  dsimp only
  rw [if_pos rfl, startEndFold_go rest b 0 hb]
  have h1 : specFirstBlock (b :: rest) = b := rfl
  have h2 : specLastBlock (b :: rest) = rest.getLastD b := by
    rw [specLastBlock, List.getLastD_cons]
  rw [h1, h2, getLastD_irrel rest hrest 0 b]

/-- C5 (amended): in simulation mode the decode recovers the committed
block range from the packed chunk records (count byte, 60-byte stride,
big-endian 8-byte block numbers), synthesizes the state roots from the
headers of the first and last committed block and takes the batch hash from
topic index 2 — provided the batch commits at least two records and the
first block number is nonzero; a single-record batch instead leaves the end
block at 0 (see the counterexample). -/
theorem sim_decode (env : SimEnv) (topics : List Nat)
    (chunks blockLists : List (List Nat)) (b : Nat) (rest : List Nat)
    (r1 r2 t2 : Nat)
    (hc : env.txChunks = some chunks)
    (hmap : chunks.mapM chunkBlocks = some blockLists)
    (hflat : blockLists.flatten = b :: rest)
    (hb : b ≠ 0) (hrest : rest ≠ [])
    (h1 : env.headerRoot (specFirstBlock blockLists.flatten) = some r1)
    (h2 : env.headerRoot (specLastBlock blockLists.flatten) = some r2)
    (ht : topics.get? 2 = some t2) :
    proverGetPoeSim env topics =
      some (Except.ok {
        poe := { batchHash := t2, newStateRoot := r2, prevStateRoot := r1 }
        batchId := 0
        startBlock := specFirstBlock blockLists.flatten
        endBlock := specLastBlock blockLists.flatten }) ∧
    (∀ count : Nat, ∀ body : List Nat,
      (∀ i, i < count → i * 60 + 8 ≤ body.length) →
      chunkBlocks (count :: body) =
        some ((List.range count).map fun i =>
          beBytes ((body.drop (i * 60)).take 8))) := by
  constructor
  · have hse : startEndFold blockLists.flatten =
        (specFirstBlock blockLists.flatten, specLastBlock blockLists.flatten) := by
      rw [hflat]
      exact startEndFold_firstLast b rest hb hrest
    have hmap2 : List.mapM.loop chunkBlocks chunks [] = some blockLists := hmap
    have ht2 : topics[2]? = some t2 := by
      rw [← List.get?_eq_getElem?]
      exact ht
    simp [proverGetPoeSim, hc, hmap, hmap2, hse, h1, h2, ht, ht2]
  · intro count body hwf
    have hcb : chunkBlocks (count :: body) =
        (List.range count).mapM fun i => (sliceRange body (i * 60) 8).map beBytes :=
      rfl
    rw [hcb]
    exact mapM_of_all_some _ _ (List.range count) fun i hi => by
      rw [sliceRange, if_pos (hwf i (List.mem_range.mp hi))]
      rfl

/-- A commitBatch chunk committing the single block 7. -/
def chunkOne : List Nat := 1 :: ([0, 0, 0, 0, 0, 0, 0, 7] ++ List.replicate 52 0)

/-- Simulation environment for the single-record batch; the state root of
block `bn` is `100 + bn`. -/
def simEnvOne : SimEnv :=
  { txChunks := some [chunkOne], headerRoot := fun bn => some (100 + bn) }

/-- C5 counterexample: for a batch committing the single block 7, the code
leaves `endBlock` at 0 and takes the new state root from block 0's header
(root 100), not from the last committed block's header (root 107). -/
theorem sim_decode_counterexample :
    ∃ r, proverGetPoeSim simEnvOne [11, 12, 13] = some (Except.ok r) ∧
      r.endBlock = 0 ∧
      specLastBlock [7] = 7 ∧
      r.poe.newStateRoot = 100 ∧
      simEnvOne.headerRoot (specLastBlock [7]) = some 107 ∧
      (100 : Nat) ≠ 107 :=
  ⟨{ poe := { batchHash := 13, newStateRoot := 100, prevStateRoot := 107 }
     batchId := 0, startBlock := 7, endBlock := 0 },
   rfl, rfl, rfl, rfl, rfl, by decide⟩

/-- The packed records of a batch committing blocks 7 and 9. -/
def bodyTwo : List Nat :=
  ([0, 0, 0, 0, 0, 0, 0, 7] ++ List.replicate 52 0) ++
    ([0, 0, 0, 0, 0, 0, 0, 9] ++ List.replicate 52 0)

/-- A commitBatch chunk committing blocks 7 and 9. -/
def chunkTwo : List Nat := 2 :: bodyTwo

/-- Simulation environment for the two-record batch. -/
def simEnvTwo : SimEnv :=
  { txChunks := some [chunkTwo], headerRoot := fun bn => some (100 + bn) }

/-- Witness for C5 at the two-record batch (blocks 7 and 9). -/
theorem sim_decode_witness :
    proverGetPoeSim simEnvTwo [11, 12, 13] =
      some (Except.ok {
        poe := { batchHash := 13, newStateRoot := 109, prevStateRoot := 107 }
        batchId := 0
        startBlock := specFirstBlock [7, 9]
        endBlock := specLastBlock [7, 9] }) ∧
    chunkBlocks (2 :: bodyTwo) =
      some ((List.range 2).map fun i => beBytes ((bodyTwo.drop (i * 60)).take 8)) :=
  ⟨(sim_decode simEnvTwo [11, 12, 13] [chunkTwo] [[7, 9]] 7 [9] 107 109 13
      rfl rfl rfl (by decide) (by decide) rfl rfl rfl).1,
   (sim_decode simEnvTwo [11, 12, 13] [chunkTwo] [[7, 9]] 7 [9] 107 109 13
      rfl rfl rfl (by decide) (by decide) rfl rfl rfl).2 2 bodyTwo (by decide)⟩

/-- C10 (amended): the unchecked accesses are exactly as claimed — variant
1 panics on logs with fewer than 32 data bytes, the simulation path panics
on fewer than 3 topics — and under the precondition (at least 32 data
bytes and 3 topics) both named access sites succeed; totality of the
simulation path additionally requires well-formed decoded chunks and
successful header fetches, which the log-shape precondition alone does not
give (see the counterexample). -/
theorem log_shape_safety (env1 : Operator1Env) (d : List Nat)
    (env : SimEnv) (topics : List Nat)
    (chunks blockLists : List (List Nat)) (r1 r2 : Nat)
    (hc : env.txChunks = some chunks)
    (hmap : chunks.mapM chunkBlocks = some blockLists)
    (h1 : env.headerRoot (startEndFold blockLists.flatten).1 = some r1)
    (h2 : env.headerRoot (startEndFold blockLists.flatten).2 = some r2) :
    (d.length < 32 → OnNewLog1 env1 d = none) ∧
    (32 ≤ d.length → OnNewLog1 env1 d ≠ none) ∧
    (topics.length < 3 → proverGetPoeSim env topics = none) ∧
    (3 ≤ topics.length → ∃ r, proverGetPoeSim env topics = some (Except.ok r)) := by
  refine ⟨?_, ?_, ?_, ?_⟩
  · intro h
    have hs : sliceRange d 0 32 = none := by
      rw [sliceRange, if_neg (by omega)]
    simp [OnNewLog1, hs]
  · intro h
    have hs : sliceRange d 0 32 = some ((d.drop 0).take 32) := by
      rw [sliceRange, if_pos (by omega)]
    simp only [OnNewLog1, hs]
    split
    · simp
    · split
      · simp
      · split <;> simp
  · intro h
    have ht : topics.get? 2 = none := List.get?_eq_none.mpr (by omega)
    have hmap2 : List.mapM.loop chunkBlocks chunks [] = some blockLists := hmap
    have ht2 : topics[2]? = none := by
      rw [← List.get?_eq_getElem?]
      exact ht
    simp [proverGetPoeSim, hc, hmap, hmap2, h1, h2, ht, ht2]
  · intro h
    have h2lt : 2 < topics.length := by omega
    have ht : topics.get? 2 = some (topics.get ⟨2, h2lt⟩) := List.get?_eq_get h2lt
    have hmap2 : List.mapM.loop chunkBlocks chunks [] = some blockLists := hmap
    have ht2 : topics[2]? = some (topics.get ⟨2, h2lt⟩) := by
      rw [← List.get?_eq_getElem?]
      exact ht
    refine ⟨{ poe := { batchHash := topics.get ⟨2, h2lt⟩, newStateRoot := r2,
                       prevStateRoot := r1 }
              batchId := 0
              startBlock := (startEndFold blockLists.flatten).1
              endBlock := (startEndFold blockLists.flatten).2 }, ?_⟩
    simp [proverGetPoeSim, hc, hmap, hmap2, h1, h2, ht, ht2]

/-- C10 counterexample: a log with three topics does not make the
simulation path total — an empty decoded chunk still panics on `chunk[0]`. -/
theorem log_shape_counterexample :
    (3 : Nat) ≤ ([11, 12, 13] : List Nat).length ∧
    proverGetPoeSim { txChunks := some [[]], headerRoot := fun _ => some 0 }
      [11, 12, 13] = none :=
  ⟨by decide, rfl⟩

/-- A fully successful variant-1 environment. -/
def env1ex : Operator1Env :=
  { getPoeByBlock := fun _ =>
      Except.ok { batchHash := 1, newStateRoot := 2, prevStateRoot := 3 }
    pack := fun _ => []
    digest := fun _ => some []
    submitOk := true }

/-- Witness for C10: both named access sites at concrete logs — panics
below the bounds, totality at them. -/
theorem log_shape_safety_witness :
    OnNewLog1 env1ex [] = none ∧
    OnNewLog1 env1ex (List.replicate 32 0) ≠ none ∧
    proverGetPoeSim simEnvTwo [] = none ∧
    (∃ r, proverGetPoeSim simEnvTwo [11, 12, 13] = some (Except.ok r)) := by
  have h := log_shape_safety env1ex [] simEnvTwo [] [chunkTwo] [[7, 9]]
    107 109 rfl rfl rfl rfl
  have h' := log_shape_safety env1ex (List.replicate 32 0) simEnvTwo
    [11, 12, 13] [chunkTwo] [[7, 9]] 107 109 rfl rfl rfl rfl
  exact ⟨h.1 (by decide), h'.2.1 (by decide), h.2.2.1 (by decide),
    h'.2.2.2 (by decide)⟩

/-- A fully successful variant-2 environment at chain head 160, in live
mode. -/
def env2ex : OperatorEnv :=
  { headHeader := some { number := 160, root := 0 }
    simulation := false
    simEnv := { txChunks := none, headerRoot := fun _ => none }
    liveResult := ProofResult.ok
      { poe := { batchHash := 1, newStateRoot := 2, prevStateRoot := 3 }
        batchId := 4, startBlock := 5, endBlock := 6 }
    identifier := 1
    quorumNumbers := [0]
    marshal := fun _ _ _ => some []
    pack := fun _ => []
    digest := fun _ => some []
    submitOk := true }

/-- C1 (code bug in operator variant 1): with chain head 160, variant 2
anchors the submitted header at reference block 159 = head − 1, but variant
1 hard-codes reference block number 0 (its own source marks the spot
`TODO: fixme`), contradicting the head − 1 anchoring claimed for both
variants. -/
theorem reference_block_number_bug :
    ∃ h1 h2 tr,
      OnNewLog1 env1ex (List.replicate 32 7) = some (Except.ok h1) ∧
      OnNewLog2 env2ex [11, 12, 13] = some (Except.ok (some h2), tr) ∧
      h1.referenceBlockNumber = 0 ∧
      h2.referenceBlockNumber = refBlockNumber 160 ∧
      refBlockNumber 160 = 159 ∧
      (0 : Nat) ≠ 159 := by
  refine ⟨_, _, _, rfl, rfl, rfl, rfl, by decide, by decide⟩

end MultiProver
